import Mathlib

/-!
# Verification of `rules_python` `extract_wheels` CLI

A shallow embedding of `src/python/pip_install/extract_wheels/__init__.py`.
The program is a linear pipeline: configure environment variables for
reproducible wheel builds, parse arguments, invoke `pip wheel` as a
subprocess, glob the produced `*.whl` artifacts, render one Bazel target per
artifact, and write `requirements.bzl`.

The process environment is modelled as a partial map `String → Option String`,
the filesystem as a partial map from path to file contents, and the external
subprocess by an oracle in a `World` structure (its exit code and the artifact
files it deposits).  Library helpers imported from
`python.pip_install.extract_wheels.lib` (`annotation`, `bazel`,
`requirements`, `wheel`) are not part of the source tree; they are modelled
from the specification, each marked `Modelled from the spec:` in its doc
comment.
-/

namespace ExtractWheels

/-- The process environment: a partial map from variable name to value,
mirroring `os.environ`. -/
def Env : Type := String → Option String

/-- `os.environ[k] = v`: update one variable. -/
def setEnv (e : Env) (k v : String) : Env :=
  fun k' => if k' = k then some v else e k'

/-- Embeds `configure_reproducible_wheels` from
`src/python/pip_install/extract_wheels/__init__.py` lines 24-47:
append `" -g0"` to `CFLAGS` when it is set, otherwise set it to `"-g0"`;
set `SOURCE_DATE_EPOCH` to `"315532800"` only when unset; set
`PYTHONHASHSEED` to `"0"` only when unset. -/
def configure_reproducible_wheels (env : Env) : Env :=
  let env1 :=
    match env "CFLAGS" with
    | some v => setEnv env "CFLAGS" (v ++ " -g0")
    | none => setEnv env "CFLAGS" "-g0"
  let env2 :=
    match env1 "SOURCE_DATE_EPOCH" with
    | some _ => env1
    | none => setEnv env1 "SOURCE_DATE_EPOCH" "315532800"
  match env2 "PYTHONHASHSEED" with
  | some _ => env2
  | none => setEnv env2 "PYTHONHASHSEED" "0"

/-- A concrete environment built from an association list (first match wins),
used to evaluate the model at concrete inputs. -/
def envOfList (l : List (String × String)) : Env :=
  fun k => (l.find? (fun p => p.1 = k)).map (fun p => p.2)

/-- An annotation payload.  `annotation.annotations_map_from_str_path` parses a
JSON file into a map from package name to annotation; the payload itself is
opaque to `main`, so it is modelled as a string. -/
abbrev Annotation : Type := String

/-- Split a character list at every occurrence of a separator (the pieces do
not contain the separator; `n` separators yield `n + 1` pieces). -/
def splitOnCharList (sep : Char) : List Char → List (List Char)
  | [] => [[]]
  | c :: cs =>
    let r := splitOnCharList sep cs
    if c = sep then [] :: r
    else
      match r with
      | [] => [[c]]
      | h :: t => (c :: h) :: t

/-- `str.split(sep)` for a one-character separator, as used throughout the
embedding (wheel filenames, requirements lines, paths, file contents). -/
def splitChar (sep : Char) (s : String) : List String :=
  (splitOnCharList sep s.data).map String.mk

/-- Modelled from the spec: `annotation.AnnotationsMap.collect`
(`lib/annotation.py` is not under `src/`).  Per the spec, annotations are
collected only for the package names handed in (those parsed from the scanned
artifact files); an entry whose name is not requested is dropped, and a
requested name with no entry is simply absent from the result. -/
def collect (annotations : List (String × Annotation)) (requirements : List String) :
    List (String × Annotation) :=
  annotations.filter (fun p => requirements.contains p.1)

/-- Python `dict.get`: first binding for the key, `None` when absent. -/
def dictGet (m : List (String × Annotation)) (k : String) : Option Annotation :=
  (m.find? (fun p => p.1 = k)).map (fun p => p.2)

/-- Modelled from the spec: `wheel.Wheel(whl).name` (`lib/wheel.py` is not
under `src/`).  The spec says the package name is parsed from the artifact's
own name-encoding convention; a wheel filename `name-version-....whl` encodes
the package name before the first dash. -/
def wheelName (wheel_file : String) : String :=
  ((splitChar '-' wheel_file).headD wheel_file)

/-- A map from package name to the extras requested for it in the
requirements file. -/
abbrev ExtrasMap : Type := List (String × List String)

/-- Modelled from the spec: one line of `requirements.parse_extras`
(`lib/requirements.py` is not under `src/`).  A requirements entry may carry a
bracketed extras suffix, e.g. `pkg[foo,bar]==2.0`; such a line yields the base
name paired with the comma-separated extras, and any other line yields
nothing. -/
def parseExtrasLine (line : String) : Option (String × List String) :=
  match splitChar '[' line with
  | [name, rest] =>
    match splitChar ']' rest with
    | [es, _] => some (name, splitChar ',' es)
    | _ => none
  | _ => none

/-- Modelled from the spec: `requirements.parse_extras` applied to the lines
of the requirements file: the extras-index from package name to requested
extras. -/
def parse_extras (lines : List String) : ExtrasMap :=
  lines.filterMap parseExtrasLine

/-- Extras requested for a package: looked up in the extras-index, the empty
set when the package declares none. -/
def extrasOf (extras : ExtrasMap) (name : String) : List String :=
  ((extras.find? (fun p => p.1 = name)).map (fun p => p.2)).getD []

/-- Remove every entry of one package from an extras-index (used to state
that an entry only affects its own package's artifact). -/
def eraseExtras (extras : ExtrasMap) (name : String) : ExtrasMap :=
  extras.filter (fun p => p.1 ≠ name)

/-- Modelled from the spec: the build-rule identifier rendered by
`bazel.extract_wheel` once the extras requested for the wheel's package are
known.  Per the spec it incorporates the artifact path, the extras set, the
data-exclusion patterns, the implicit-namespace-package flag, the repo-prefix
string, and the optional annotation. -/
def renderIdent (wheel_file : String) (extras_requested : List String)
    (pip_data_exclude : List String) (enable_implicit_namespace_pkgs : Bool)
    ( repo_prefix : String) (ann : Option Annotation) : String :=
  "//" ++ repo_prefix ++ wheelName wheel_file ++ ":" ++ wheel_file
    ++ "|extras=" ++ String.intercalate "," extras_requested
    ++ "|exclude=" ++ String.intercalate "," pip_data_exclude
    ++ "|nspkgs=" ++ (if enable_implicit_namespace_pkgs then "1" else "0")
    ++ "|annotation=" ++ (match ann with | some a => a | none => "<none>")

/-- Modelled from the spec: `bazel.extract_wheel` (`lib/bazel.py` is not under
`src/`).  Per the spec, for each artifact the package's extras are looked up
in the extras-index by the package name parsed from the artifact (resolution
only returns the base name), and the generated build-rule identifier
incorporates the artifact path, that extras set, the data-exclusion patterns,
the namespace-package flag, the repo prefix and the optional annotation. -/
def extract_wheel (wheel_file : String) (extras : ExtrasMap)
    (pip_data_exclude : List String) (enable_implicit_namespace_pkgs : Bool)
    ( repo_prefix : String) (ann : Option Annotation) : String :=
  renderIdent wheel_file (extrasOf extras (wheelName wheel_file))
    pip_data_exclude enable_implicit_namespace_pkgs repo_prefix ann

/-- Modelled from the spec: `bazel.generate_requirements_file_contents`
(`lib/bazel.py` is not under `src/`).  Per the spec the final file text
concatenates all target labels under the repo label. -/
def generate_requirements_file_contents (repo_label : String)
    (targets : List String) : String :=
  "# requirements for " ++ repo_label ++ "\n"
    ++ "all_requirements = [" ++ String.intercalate ", " targets ++ "]\n"

/-- The parsed command-line arguments (`argparse` output together with
`arguments.deserialize_structured_args`): the structured fields are already
native lists/maps.  `annotations` is the parsed annotations JSON map. -/
structure Args where
  requirements : String
  annotations : List (String × Annotation)
  repo : String
  repo_prefix : String
  isolated : Bool
  enable_implicit_namespace_pkgs : Bool
  extra_pip_args : List String
  pip_data_exclude : List String
  environment : List (String × String)

/-- The outside world `main` interacts with: the inherited process
environment, `sys.executable`, the current working directory, the filesystem
(path to contents), and the oracle for the `pip` subprocess — its exit code
and the `*.whl` files that `glob.glob "*.whl"` finds in the working directory
after it ran. -/
structure World where
  osEnviron : Env
  sysExecutable : String
  cwd : String
  fs : String → Option String
  subprocessExit : Nat
  wheelFiles : List String

/-- Path components of a POSIX path string, dropping empty and `.` parts. -/
def pathComponents (s : String) : List String :=
  (splitChar '/' s).filter (fun c => c != "" && c != ".")

/-- Embeds `str(pathlib.Path(p).parent.resolve())` as evaluated at line 96 of
`__init__.py`: the parent directory of `p`, made absolute against the current
working directory.  The model assumes an absolute `cwd`, no symlinks and no
`..` components, which is what `resolve()` reduces to in that case. -/
def parentResolve (cwd p : String) : String :=
  let comps :=
    (if p.startsWith "/" then [] else pathComponents cwd) ++ pathComponents p
  "/" ++ String.intercalate "/" comps.dropLast

/-- Embeds the `pip_args` expression of `__init__.py` lines 80-86:
`[sys.executable, "-m", "pip"]` then `["--isolated"]` when `args.isolated`,
then `["wheel", "-r", args.requirements]`, then `["--wheel-dir", os.getcwd()]`,
then the user-supplied `extra_pip_args` verbatim. -/
def pip_args (sysExecutable : String) (a : Args) (cwd : String) : List String :=
  [sysExecutable, "-m", "pip"]
    ++ (if a.isolated then ["--isolated"] else [])
    ++ ["wheel", "-r", a.requirements]
    ++ ["--wheel-dir", cwd]
    ++ a.extra_pip_args

/-- Embeds `env = os.environ.copy(); env.update(...)` of `__init__.py` lines
88-89: a fresh map that answers with the user-supplied entry when its key is
present and with the inherited process environment otherwise. -/
def subprocess_env (osEnv : Env) (extra : List (String × String)) : Env :=
  fun k =>
    match extra.find? (fun p => p.1 = k) with
    | some p => some p.2
    | none => osEnv k

/-- `open(path, "w")` followed by a full write: the file's prior contents are
discarded and replaced. -/
def fsWrite (fs : String → Option String) (path contents : String) :
    String → Option String :=
  fun q => if q = path then some contents else fs q

/-- `subprocess.CalledProcessError`, raised by `subprocess.run(..., check=True)`
on a non-zero exit code. -/
structure CalledProcessError where
  cmd : List String
  returncode : Nat
deriving DecidableEq

/-- Keys of a Python dict comprehension `for whl in wheels`: first occurrence
of each key is kept, in order. -/
def pyDedupAux : List String → List String → List String
  | [], _ => []
  | x :: xs, seen =>
    if seen.contains x then pyDedupAux xs seen
    else x :: pyDedupAux xs (x :: seen)

/-- First-occurrence-preserving deduplication, the key order of a Python dict
comprehension. -/
def pyDedup (l : List String) : List String := pyDedupAux l []

/-- The lines of the requirements file as found on the filesystem (the
subprocess has succeeded by the time they are parsed, so the file exists; a
missing file reads as empty). -/
def fileLines (w : World) (a : Args) : List String :=
  splitChar '\n' ((w.fs a.requirements).getD "")

/-- `extras = requirements.parse_extras(args.requirements)` at line 99. -/
def mainExtras (w : World) (a : Args) : ExtrasMap :=
  parse_extras (fileLines w a)

/-- `repo_label = "@%s" % args.repo` at line 101. -/
def repoLabel (a : Args) : String := "@" ++ a.repo

/-- `reqs = {whl: wheel.Wheel(whl).name for whl in wheels}` at line 107, with
`wheels` the glob results (line 104). -/
def mainReqs (w : World) : List (String × String) :=
  (pyDedup w.wheelFiles).map (fun whl => (whl, wheelName whl))

/-- `annotations = args.annotations.collect(reqs.values())` at line 108. -/
def mainAnnotations (w : World) (a : Args) : List (String × Annotation) :=
  collect a.annotations ((mainReqs w).map (fun p => p.2))

/-- The `'"{}{}"'.format(repo_label, ...)` template of line 111: the rendered
target is the repo label followed by the build-rule identifier, wrapped in
literal quote characters for the generated file. -/
def renderTarget (repo_label ident : String) : String :=
  "\"" ++ repo_label ++ ident ++ "\""

/-- The `targets` list comprehension of `__init__.py` lines 110-123: one
rendered target per `(whl, name)` entry of `reqs`, with the annotation looked
up by `annotations.get(name)`. -/
def mainTargets (w : World) (a : Args) : List String :=
  (mainReqs w).map (fun p =>
    renderTarget (repoLabel a)
      (extract_wheel p.1 (mainExtras w a) a.pip_data_exclude
        a.enable_implicit_namespace_pkgs a.repo_prefix
        (dictGet (mainAnnotations w a) p.2)))

/-- The observable outcome of one run of `main`: the command line, environment
and working directory handed to the subprocess, the process environment after
`configure_reproducible_wheels`, the final filesystem, and either the
propagated subprocess error (a non-zero exit of the whole program) or the
rendered targets on success. -/
structure MainResult where
  pipCmd : List String
  pipEnv : Env
  pipCwd : String
  osEnviron : Env
  fs : String → Option String
  exit : Except CalledProcessError (List String)

/-- Embeds `main` of `__init__.py` lines 50-128: configure the environment,
build the pip command line, merge the subprocess environment, run pip with
the working directory set to the requirements file's parent (raising
`CalledProcessError` on a non-zero exit, which aborts the program before
anything is written), then parse extras, glob wheels, collect annotations,
render one target per wheel and overwrite `requirements.bzl`. -/
def main (w : World) (a : Args) : MainResult :=
  let osEnv := configure_reproducible_wheels w.osEnviron
  let cmd := pip_args w.sysExecutable a w.cwd
  let env := subprocess_env osEnv a.environment
  let pcwd := parentResolve w.cwd a.requirements
  if w.subprocessExit ≠ 0 then
    { pipCmd := cmd, pipEnv := env, pipCwd := pcwd, osEnviron := osEnv,
      fs := w.fs, exit := Except.error ⟨cmd, w.subprocessExit⟩ }
  else
    let targets := mainTargets w a
    let contents := generate_requirements_file_contents (repoLabel a) targets
    { pipCmd := cmd, pipEnv := env, pipCwd := pcwd, osEnviron := osEnv,
      fs := fsWrite w.fs "requirements.bzl" contents,
      exit := Except.ok targets }

/-! ## Concrete fixtures (used by witnesses) -/

/-- A concrete argument set: one annotated package, isolation on, one extra
pip argument, one user-supplied environment entry whose key also exists in
the inherited environment. -/
def sampleArgs : Args where
  requirements := "sub/requirements.txt"
  annotations := [("requests", "annR")]
  repo := "pip"
  repo_prefix := "pypi__"
  isolated := true
  enable_implicit_namespace_pkgs := false
  extra_pip_args := ["--no-cache-dir"]
  pip_data_exclude := []
  environment := [("FOO", "bar")]

/-- A concrete world: a requirements file with one extras-bearing entry and
one plain entry, a successful subprocess, and two wheel artifacts. -/
def sampleWorld : World where
  osEnviron := envOfList [("PATH", "/usr/bin"), ("CFLAGS", "-O2"), ("FOO", "orig")]
  sysExecutable := "/usr/bin/python3"
  cwd := "/work/out"
  fs := fun p =>
    if p = "sub/requirements.txt" then
      some "requests[security]==2.0.0\nflask==1.0"
    else none
  subprocessExit := 0
  wheelFiles := ["requests-2.0.0-py3-none-any.whl", "flask-1.0-py3-none-any.whl"]

/-- `sampleWorld` with the subprocess failing with exit code 1. -/
def sampleWorldFail : World :=
  { sampleWorld with subprocessExit := 1 }

/-- `sampleWorld` with the subprocess succeeding but producing no wheels. -/
def sampleWorldEmpty : World :=
  { sampleWorld with wheelFiles := [] }

/-! ## Claim theorems -/

/-- C1: if the pip subprocess exits with a non-zero code, `main` propagates
the `CalledProcessError` (so the program exits non-zero), and the filesystem
is untouched: `requirements.bzl` is not written, no partial result is
produced and there is no retry. -/
theorem subprocess_failure_is_fatal (w : World) (a : Args)
    (h : w.subprocessExit ≠ 0) :
    (main w a).exit
        = Except.error ⟨pip_args w.sysExecutable a w.cwd, w.subprocessExit⟩
      ∧ (main w a).fs = w.fs := by
  simp [main, h]

/-- Witness for C1 at a concrete failing world. -/
theorem subprocess_failure_is_fatal_witness :
    (main sampleWorldFail sampleArgs).exit
        = Except.error ⟨pip_args sampleWorldFail.sysExecutable sampleArgs sampleWorldFail.cwd,
            sampleWorldFail.subprocessExit⟩
      ∧ (main sampleWorldFail sampleArgs).fs = sampleWorldFail.fs :=
  subprocess_failure_is_fatal sampleWorldFail sampleArgs (by decide)

/-- C2: the command line passed to the subprocess is, in order, the
interpreter invocation of the package manager, the isolation flag exactly
when `isolated` is set, the `wheel` subcommand with `-r` and the requirements
path, `--wheel-dir` pointing at the original working directory, and the extra
user arguments verbatim; and the subprocess working directory is the resolved
parent directory of the requirements file. -/
theorem pip_command_line (w : World) (a : Args) :
    (main w a).pipCmd
        = [w.sysExecutable, "-m", "pip"]
            ++ (if a.isolated then ["--isolated"] else [])
            ++ ["wheel", "-r", a.requirements]
            ++ ["--wheel-dir", w.cwd]
            ++ a.extra_pip_args
      ∧ (main w a).pipCwd = parentResolve w.cwd a.requirements := by
  unfold main
  constructor
  · split <;> simp [pip_args]
  · split <;> rfl

/-- Witness for C2 at the concrete world and arguments. -/
theorem pip_command_line_witness :
    (main sampleWorld sampleArgs).pipCmd
        = [sampleWorld.sysExecutable, "-m", "pip"]
            ++ (if sampleArgs.isolated then ["--isolated"] else [])
            ++ ["wheel", "-r", sampleArgs.requirements]
            ++ ["--wheel-dir", sampleWorld.cwd]
            ++ sampleArgs.extra_pip_args
      ∧ (main sampleWorld sampleArgs).pipCwd
        = parentResolve sampleWorld.cwd sampleArgs.requirements :=
  pip_command_line sampleWorld sampleArgs

/-- String concatenation is associative (via the underlying character
lists). -/
theorem string_append_assoc (a b c : String) : a ++ b ++ c = a ++ (b ++ c) := by
  rcases a with ⟨la⟩
  rcases b with ⟨lb⟩
  rcases c with ⟨lc⟩
  show String.mk (la ++ lb ++ lc) = String.mk (la ++ (lb ++ lc))
  rw [List.append_assoc]

/-- Any variable other than the three reproducibility variables is left
unchanged by `configure_reproducible_wheels`. -/
theorem configure_apply_other (e : Env) (k : String) (h1 : k ≠ "CFLAGS")
    (h2 : k ≠ "SOURCE_DATE_EPOCH") (h3 : k ≠ "PYTHONHASHSEED") :
    configure_reproducible_wheels e k = e k := by
  unfold configure_reproducible_wheels
  cases hc : e "CFLAGS" <;>
    cases hs : e "SOURCE_DATE_EPOCH" <;>
      cases hp : e "PYTHONHASHSEED" <;>
        simp [setEnv, hc, hs, hp, h1, h2, h3]

/-- Closed form of `configure_reproducible_wheels` at `SOURCE_DATE_EPOCH`:
the present value is kept, the default fills in only when unset. -/
theorem configure_apply_sde (e : Env) :
    configure_reproducible_wheels e "SOURCE_DATE_EPOCH"
      = some ((e "SOURCE_DATE_EPOCH").getD "315532800") := by
  unfold configure_reproducible_wheels
  cases hc : e "CFLAGS" <;>
    cases hs : e "SOURCE_DATE_EPOCH" <;>
      cases hp : e "PYTHONHASHSEED" <;>
        simp [setEnv, hc, hs, hp]

/-- Closed form of `configure_reproducible_wheels` at `PYTHONHASHSEED`:
the present value is kept, the default fills in only when unset. -/
theorem configure_apply_phs (e : Env) :
    configure_reproducible_wheels e "PYTHONHASHSEED"
      = some ((e "PYTHONHASHSEED").getD "0") := by
  unfold configure_reproducible_wheels
  cases hc : e "CFLAGS" <;>
    cases hs : e "SOURCE_DATE_EPOCH" <;>
      cases hp : e "PYTHONHASHSEED" <;>
        simp [setEnv, hc, hs, hp]

/-- Closed form of `configure_reproducible_wheels` at `CFLAGS`: a present
value gets `" -g0"` appended, an absent one becomes `"-g0"`. -/
theorem configure_apply_cflags (e : Env) :
    configure_reproducible_wheels e "CFLAGS"
      = some (match e "CFLAGS" with | some v => v ++ " -g0" | none => "-g0") := by
  unfold configure_reproducible_wheels
  cases hc : e "CFLAGS" <;>
    cases hs : e "SOURCE_DATE_EPOCH" <;>
      cases hp : e "PYTHONHASHSEED" <;>
        simp [setEnv, hc, hs, hp]

/-- C6: `configure_reproducible_wheels` mutates only `CFLAGS`,
`SOURCE_DATE_EPOCH` and `PYTHONHASHSEED`: every other variable is unchanged;
the timestamp epoch and the hash seed are set only when unset and never
overwritten when present; and `CFLAGS` is only appended to — a present value
`v` becomes `v ++ " -g0"`, an absent one becomes `"-g0"`. -/
theorem configure_env_frame (e : Env) :
    (∀ k, k ≠ "CFLAGS" → k ≠ "SOURCE_DATE_EPOCH" → k ≠ "PYTHONHASHSEED" →
        configure_reproducible_wheels e k = e k)
      ∧ (∀ v, e "SOURCE_DATE_EPOCH" = some v →
          configure_reproducible_wheels e "SOURCE_DATE_EPOCH" = some v)
      ∧ (e "SOURCE_DATE_EPOCH" = none →
          configure_reproducible_wheels e "SOURCE_DATE_EPOCH" = some "315532800")
      ∧ (∀ v, e "PYTHONHASHSEED" = some v →
          configure_reproducible_wheels e "PYTHONHASHSEED" = some v)
      ∧ (e "PYTHONHASHSEED" = none →
          configure_reproducible_wheels e "PYTHONHASHSEED" = some "0")
      ∧ (∀ v, e "CFLAGS" = some v →
          configure_reproducible_wheels e "CFLAGS" = some (v ++ " -g0"))
      ∧ (e "CFLAGS" = none →
          configure_reproducible_wheels e "CFLAGS" = some "-g0") := by
  refine ⟨fun k h1 h2 h3 => configure_apply_other e k h1 h2 h3,
    fun v hv => ?_, fun hv => ?_, fun v hv => ?_, fun hv => ?_,
    fun v hv => ?_, fun hv => ?_⟩ <;>
      simp [configure_apply_sde, configure_apply_phs, configure_apply_cflags, hv]

/-- Witness for C6 at a concrete environment: `CFLAGS` present, the epoch and
hash-seed variables absent, and an unrelated `PATH` entry untouched. -/
theorem configure_env_frame_witness :
    (configure_reproducible_wheels
        (envOfList [("CFLAGS", "-O2"), ("PATH", "/usr/bin")])) "PATH"
        = (envOfList [("CFLAGS", "-O2"), ("PATH", "/usr/bin")]) "PATH"
      ∧ (configure_reproducible_wheels
          (envOfList [("CFLAGS", "-O2"), ("PATH", "/usr/bin")])) "SOURCE_DATE_EPOCH"
        = some "315532800"
      ∧ (configure_reproducible_wheels
          (envOfList [("CFLAGS", "-O2"), ("PATH", "/usr/bin")])) "PYTHONHASHSEED"
        = some "0"
      ∧ (configure_reproducible_wheels
          (envOfList [("CFLAGS", "-O2"), ("PATH", "/usr/bin")])) "CFLAGS"
        = some ("-O2" ++ " -g0") :=
  ⟨(configure_env_frame _).1 "PATH" (by decide) (by decide) (by decide),
   (configure_env_frame _).2.2.1 (by decide),
   (configure_env_frame _).2.2.2.2.1 (by decide),
   (configure_env_frame _).2.2.2.2.2.1 "-O2" (by decide)⟩

/-- C7: configuring twice is functionally the same as configuring once:
`SOURCE_DATE_EPOCH` and `PYTHONHASHSEED` have identical values after one and
two calls, and after each call `CFLAGS` ends in the debug-disabling flag
`-g0` (so the effective compiler flags agree, even though the suffix is
appended again on the second call). -/
theorem configure_twice_functionally_equal (e : Env) :
    configure_reproducible_wheels (configure_reproducible_wheels e)
        "SOURCE_DATE_EPOCH"
        = configure_reproducible_wheels e "SOURCE_DATE_EPOCH"
      ∧ configure_reproducible_wheels (configure_reproducible_wheels e)
          "PYTHONHASHSEED"
        = configure_reproducible_wheels e "PYTHONHASHSEED"
      ∧ (∃ s, configure_reproducible_wheels e "CFLAGS" = some (s ++ "-g0"))
      ∧ (∃ s, configure_reproducible_wheels (configure_reproducible_wheels e)
          "CFLAGS" = some (s ++ "-g0")) := by
  have hspace : (" " : String) ++ "-g0" = " -g0" := by decide
  have hg0 : ∀ f : Env, ∃ s, configure_reproducible_wheels f "CFLAGS"
      = some (s ++ "-g0") := by
    intro f
    rw [configure_apply_cflags]
    cases hf : f "CFLAGS" with
    | none => exact ⟨"", by decide⟩
    | some v =>
      refine ⟨v ++ " ", ?_⟩
      rw [string_append_assoc, hspace]
  refine ⟨?_, ?_, hg0 e, hg0 _⟩
  · rw [configure_apply_sde (configure_reproducible_wheels e),
      configure_apply_sde e]
    cases hs : e "SOURCE_DATE_EPOCH" <;>
      simp [configure_apply_sde, hs]
  · rw [configure_apply_phs (configure_reproducible_wheels e),
      configure_apply_phs e]
    cases hp : e "PYTHONHASHSEED" <;>
      simp [configure_apply_phs, hp]

/-- Witness for C7 at a concrete environment with `CFLAGS` present. -/
theorem configure_twice_functionally_equal_witness :
    configure_reproducible_wheels
        (configure_reproducible_wheels (envOfList [("CFLAGS", "-O2")]))
        "SOURCE_DATE_EPOCH"
        = configure_reproducible_wheels (envOfList [("CFLAGS", "-O2")])
            "SOURCE_DATE_EPOCH"
      ∧ configure_reproducible_wheels
          (configure_reproducible_wheels (envOfList [("CFLAGS", "-O2")]))
          "PYTHONHASHSEED"
        = configure_reproducible_wheels (envOfList [("CFLAGS", "-O2")])
            "PYTHONHASHSEED"
      ∧ (∃ s, configure_reproducible_wheels (envOfList [("CFLAGS", "-O2")])
          "CFLAGS" = some (s ++ "-g0"))
      ∧ (∃ s, configure_reproducible_wheels
          (configure_reproducible_wheels (envOfList [("CFLAGS", "-O2")]))
          "CFLAGS" = some (s ++ "-g0")) :=
  configure_twice_functionally_equal (envOfList [("CFLAGS", "-O2")])

/-- `pyDedupAux` leaves a list untouched when it has no duplicates and no
element was already seen. -/
theorem pyDedupAux_eq_self (l : List String) :
    ∀ seen, (∀ x ∈ l, x ∉ seen) → l.Nodup → pyDedupAux l seen = l := by
  induction l with
  | nil => intro seen _ _; rfl
  | cons x xs ih =>
    intro seen hseen hnd
    have hx : x ∉ seen := hseen x (List.mem_cons_self x xs)
    have hnotin : seen.contains x = false := by
      simpa using hx
    rw [pyDedupAux, hnotin]
    simp only [Bool.false_eq_true, if_false]
    rw [ih (x :: seen) ?_ (List.Nodup.of_cons hnd)]
    intro y hy
    simp only [List.mem_cons, not_or]
    exact ⟨fun hyx => (List.nodup_cons.mp hnd).1 (hyx ▸ hy),
      hseen y (List.mem_cons_of_mem x hy)⟩

/-- `pyDedup` is the identity on duplicate-free lists (glob results are
distinct paths). -/
theorem pyDedup_eq_self (l : List String) (h : l.Nodup) : pyDedup l = l :=
  pyDedupAux_eq_self l [] (by simp) h

/-- C3: on a successful run with (necessarily distinct) scanned artifacts,
`main` succeeds with exactly one rendered target per artifact — the target
list has the same length as the scanned wheel list — and every target is the
repo label followed by the build-rule identifier generated from its artifact,
wrapped in the literal quotes of the template. -/
theorem one_target_per_artifact (w : World) (a : Args)
    (h0 : w.subprocessExit = 0) (hnd : w.wheelFiles.Nodup) :
    (main w a).exit = Except.ok (mainTargets w a)
      ∧ (mainTargets w a).length = w.wheelFiles.length
      ∧ ∀ t ∈ mainTargets w a, ∃ whl ∈ w.wheelFiles,
          t = "\"" ++ repoLabel a
                ++ extract_wheel whl (mainExtras w a) a.pip_data_exclude
                    a.enable_implicit_namespace_pkgs a.repo_prefix
                    (dictGet (mainAnnotations w a) (wheelName whl))
                ++ "\"" := by
  refine ⟨by simp [main, h0], ?_, ?_⟩
  · simp [mainTargets, mainReqs, pyDedup_eq_self w.wheelFiles hnd]
  · intro t ht
    simp only [mainTargets, mainReqs, pyDedup_eq_self w.wheelFiles hnd,
      List.map_map, List.mem_map, Function.comp] at ht
    obtain ⟨whl, hwhl, rfl⟩ := ht
    exact ⟨whl, hwhl, by simp [renderTarget, string_append_assoc]⟩

/-- Witness for C3 at the concrete two-wheel world. -/
theorem one_target_per_artifact_witness :
    (main sampleWorld sampleArgs).exit
        = Except.ok (mainTargets sampleWorld sampleArgs)
      ∧ (mainTargets sampleWorld sampleArgs).length
        = sampleWorld.wheelFiles.length
      ∧ ∀ t ∈ mainTargets sampleWorld sampleArgs,
          ∃ whl ∈ sampleWorld.wheelFiles,
            t = "\"" ++ repoLabel sampleArgs
                  ++ extract_wheel whl (mainExtras sampleWorld sampleArgs)
                      sampleArgs.pip_data_exclude
                      sampleArgs.enable_implicit_namespace_pkgs
                      sampleArgs.repo_prefix
                      (dictGet (mainAnnotations sampleWorld sampleArgs)
                        (wheelName whl))
                  ++ "\"" :=
  one_target_per_artifact sampleWorld sampleArgs (by decide) (by decide)

/-- C5: when the scan finds zero artifacts after a successful subprocess run,
`main` still succeeds: the target list is empty and `requirements.bzl` is
written with the zero-target contents, replacing whatever the file held
before (the prior filesystem `w.fs` is arbitrary); every other path is left
as it was. -/
theorem empty_scan_still_writes (w : World) (a : Args)
    (h0 : w.subprocessExit = 0) (hw : w.wheelFiles = []) :
    mainTargets w a = []
      ∧ (main w a).exit = Except.ok []
      ∧ (main w a).fs "requirements.bzl"
        = some (generate_requirements_file_contents (repoLabel a) [])
      ∧ ∀ q, q ≠ "requirements.bzl" → (main w a).fs q = w.fs q := by
  have ht : mainTargets w a = [] := by
    simp [mainTargets, mainReqs, hw, pyDedup, pyDedupAux]
  refine ⟨ht, ?_, ?_, ?_⟩
  · simp [main, h0, ht]
  · simp [main, h0, ht, fsWrite]
  · intro q hq
    simp [main, h0, ht, fsWrite, hq]

/-- Witness for C5 at the concrete empty-scan world. -/
theorem empty_scan_still_writes_witness :
    mainTargets sampleWorldEmpty sampleArgs = []
      ∧ (main sampleWorldEmpty sampleArgs).exit = Except.ok []
      ∧ (main sampleWorldEmpty sampleArgs).fs "requirements.bzl"
        = some (generate_requirements_file_contents (repoLabel sampleArgs) [])
      ∧ ∀ q, q ≠ "requirements.bzl" →
          (main sampleWorldEmpty sampleArgs).fs q = sampleWorldEmpty.fs q :=
  empty_scan_still_writes sampleWorldEmpty sampleArgs (by decide) (by decide)

/-- A name with no entry in the full annotations map has none in the
collected (filtered) map either. -/
theorem dictGet_collect_none (A : List (String × Annotation))
    (names : List String) (n : String)
    (h : A.find? (fun p => p.1 = n) = none) :
    dictGet (collect A names) n = none := by
  have hf : (collect A names).find? (fun p => p.1 = n) = none := by
    rw [List.find?_eq_none] at h ⊢
    intro x hx
    exact h x (List.mem_of_mem_filter hx)
  simp [dictGet, hf]

/-- C8: a scanned artifact whose package name has no entry in the annotation
set is rendered with a null annotation — `annotations.get` yields `None`, the
target is still produced (rendering does not fail), and `main` still
succeeds with the full target list. -/
theorem missing_annotation_ok (w : World) (a : Args) (whl : String)
    (h0 : w.subprocessExit = 0)
    (hw : whl ∈ pyDedup w.wheelFiles)
    (hann : a.annotations.find? (fun p => p.1 = wheelName whl) = none) :
    dictGet (mainAnnotations w a) (wheelName whl) = none
      ∧ renderTarget (repoLabel a)
          (extract_wheel whl (mainExtras w a) a.pip_data_exclude
            a.enable_implicit_namespace_pkgs a.repo_prefix none)
        ∈ mainTargets w a
      ∧ (main w a).exit = Except.ok (mainTargets w a) := by
  have hd : dictGet (mainAnnotations w a) (wheelName whl) = none :=
    dictGet_collect_none a.annotations _ (wheelName whl) hann
  refine ⟨hd, ?_, by simp [main, h0]⟩
  have hmem : (whl, wheelName whl) ∈ mainReqs w :=
    List.mem_map.mpr ⟨whl, hw, rfl⟩
  rw [← hd]
  exact List.mem_map.mpr ⟨(whl, wheelName whl), hmem, rfl⟩

/-- Witness for C8: the `flask` wheel has no annotation entry in
`sampleArgs`. -/
theorem missing_annotation_ok_witness :
    dictGet (mainAnnotations sampleWorld sampleArgs)
        (wheelName "flask-1.0-py3-none-any.whl") = none
      ∧ renderTarget (repoLabel sampleArgs)
          (extract_wheel "flask-1.0-py3-none-any.whl"
            (mainExtras sampleWorld sampleArgs) sampleArgs.pip_data_exclude
            sampleArgs.enable_implicit_namespace_pkgs sampleArgs.repo_prefix
            none)
        ∈ mainTargets sampleWorld sampleArgs
      ∧ (main sampleWorld sampleArgs).exit
        = Except.ok (mainTargets sampleWorld sampleArgs) :=
  missing_annotation_ok sampleWorld sampleArgs "flask-1.0-py3-none-any.whl"
    (by decide) (by decide) (by decide)

/-- `find?` on an association list with duplicate-free keys returns the
binding of a listed pair. -/
theorem find?_of_mem_nodup_keys (l : List (String × String)) (k v : String)
    (hmem : (k, v) ∈ l) (hnd : (l.map Prod.fst).Nodup) :
    l.find? (fun p => p.1 = k) = some (k, v) := by
  induction l with
  | nil => simp at hmem
  | cons x xs ih =>
    rcases List.mem_cons.mp hmem with hx | hx
    · rw [← hx]
      simp [List.find?_cons]
    · have hk : x.1 ≠ k := by
        intro hxk
        have hmk : x.1 ∈ xs.map Prod.fst :=
          List.mem_map.mpr ⟨(k, v), hx, hxk.symm⟩
        exact (List.nodup_cons.mp (by simpa using hnd)).1 hmk
      have hrec := ih hx (List.Nodup.of_cons (by simpa using hnd))
      simp [List.find?_cons, hk, hrec]

/-- C9: an extra environment entry handed to the subprocess overrides the
inherited value for the same key, and building the merged environment leaves
the process's own environment untouched — at program end it is exactly what
`configure_reproducible_wheels` produced, independent of the user map. -/
theorem env_override_on_copy (w : World) (a : Args) (k v : String)
    (hmem : (k, v) ∈ a.environment)
    (hnd : (a.environment.map Prod.fst).Nodup) :
    (main w a).pipEnv k = some v
      ∧ (main w a).osEnviron = configure_reproducible_wheels w.osEnviron := by
  have hf := find?_of_mem_nodup_keys a.environment k v hmem hnd
  have hp : (main w a).pipEnv
      = subprocess_env (configure_reproducible_wheels w.osEnviron)
          a.environment := by
    unfold main; split <;> rfl
  refine ⟨?_, by unfold main; split <;> rfl⟩
  rw [hp]
  simp [subprocess_env, hf]

/-- Witness for C9: `FOO` is `orig` in the inherited environment and `bar`
in the user-supplied map; the subprocess sees `bar`. -/
theorem env_override_on_copy_witness :
    (main sampleWorld sampleArgs).pipEnv "FOO" = some "bar"
      ∧ (main sampleWorld sampleArgs).osEnviron
        = configure_reproducible_wheels sampleWorld.osEnviron :=
  env_override_on_copy sampleWorld sampleArgs "FOO" "bar" (by decide) (by decide)

/-- C10: an annotation entry for a package name that matches no scanned
artifact is silently dropped by `collect`: adding such an entry changes
nothing about the run — neither the targets, nor the output file, nor any
other observable. -/
theorem unmatched_annotation_ignored (w : World) (a : Args) (n : String)
    (ann : Annotation)
    (hn : n ∉ (mainReqs w).map (fun p => p.2)) :
    main w { a with annotations := a.annotations ++ [(n, ann)] } = main w a := by
  have hpair : ∀ x : String, (x, n) ∉ mainReqs w :=
    fun x hx => hn (List.mem_map.mpr ⟨(x, n), hx, rfl⟩)
  have hann2 : mainAnnotations w { a with annotations := a.annotations ++ [(n, ann)] }
      = mainAnnotations w a := by
    simp [mainAnnotations, collect, List.filter_append, hpair]
  have htarg : mainTargets w { a with annotations := a.annotations ++ [(n, ann)] }
      = mainTargets w a := by
    simp [mainTargets, hann2, mainExtras, fileLines, repoLabel]
  unfold main
  split <;> simp [pip_args, htarg, repoLabel]

/-- Witness for C10: a `django` annotation with no `django` wheel scanned. -/
theorem unmatched_annotation_ignored_witness :
    main sampleWorld
        { sampleArgs with
          annotations := sampleArgs.annotations ++ [("django", "annD")] }
      = main sampleWorld sampleArgs :=
  unmatched_annotation_ignored sampleWorld sampleArgs "django" "annD" (by decide)

/-- Erasing one package's entries from an extras-index does not change the
lookup for any other package. -/
theorem find?_eraseExtras (m : ExtrasMap) (p n : String) (h : n ≠ p) :
    (eraseExtras m p).find? (fun q => q.1 = n)
      = m.find? (fun q => q.1 = n) := by
  induction m with
  | nil => rfl
  | cons x xs ih =>
    by_cases hxp : x.1 = p
    · have hxn : ¬ x.1 = n := fun hh => h (by rw [← hh, hxp])
      simp [eraseExtras, List.filter_cons, hxp, List.find?_cons, hxn,
        Ne.symm h]
      simpa [eraseExtras] using ih
    · by_cases hxn : x.1 = n
      · simp [eraseExtras, List.filter_cons, hxp, List.find?_cons, hxn, h]
      · simp [eraseExtras, List.filter_cons, hxp, List.find?_cons, hxn]
        simpa [eraseExtras] using ih

/-- `extrasOf` after erasing another package's entries. -/
theorem extrasOf_eraseExtras (m : ExtrasMap) (p n : String) (h : n ≠ p) :
    extrasOf (eraseExtras m p) n = extrasOf m n := by
  simp [extrasOf, find?_eraseExtras m p n h]

/-- C4: a package whose requirements entry declares extras gets exactly those
extras in the rendered target of its artifact — the build-rule identifier is
`renderIdent` at precisely the declared extras list — while the target of any
artifact of a different package is unchanged if the declaring entry is erased
from the extras-index. -/
theorem extras_applied_per_package (w : World) (a : Args) (whl : String)
    (E : List String)
    (h0 : w.subprocessExit = 0)
    (hw : whl ∈ pyDedup w.wheelFiles)
    (hE : (mainExtras w a).find? (fun q => q.1 = wheelName whl)
      = some (wheelName whl, E)) :
    renderTarget (repoLabel a)
        (renderIdent whl E a.pip_data_exclude a.enable_implicit_namespace_pkgs
          a.repo_prefix (dictGet (mainAnnotations w a) (wheelName whl)))
      ∈ mainTargets w a
      ∧ (main w a).exit = Except.ok (mainTargets w a)
      ∧ ∀ whl', wheelName whl' ≠ wheelName whl →
          extract_wheel whl' (mainExtras w a) a.pip_data_exclude
              a.enable_implicit_namespace_pkgs a.repo_prefix
              (dictGet (mainAnnotations w a) (wheelName whl'))
            = extract_wheel whl'
                (eraseExtras (mainExtras w a) (wheelName whl))
                a.pip_data_exclude a.enable_implicit_namespace_pkgs
                a.repo_prefix
                (dictGet (mainAnnotations w a) (wheelName whl')) := by
  have hex : extract_wheel whl (mainExtras w a) a.pip_data_exclude
      a.enable_implicit_namespace_pkgs a.repo_prefix
      (dictGet (mainAnnotations w a) (wheelName whl))
      = renderIdent whl E a.pip_data_exclude a.enable_implicit_namespace_pkgs
          a.repo_prefix (dictGet (mainAnnotations w a) (wheelName whl)) := by
    simp [extract_wheel, extrasOf, hE]
  refine ⟨?_, by simp [main, h0], ?_⟩
  · have hmem : (whl, wheelName whl) ∈ mainReqs w :=
      List.mem_map.mpr ⟨whl, hw, rfl⟩
    rw [← hex]
    exact List.mem_map.mpr ⟨(whl, wheelName whl), hmem, rfl⟩
  · intro whl' hne
    simp [extract_wheel,
      extrasOf_eraseExtras (mainExtras w a) (wheelName whl) (wheelName whl') hne]

/-- Witness for C4: the `requests` entry declares `[security]`; its wheel's
target carries exactly that extras list. -/
theorem extras_applied_per_package_witness :
    renderTarget (repoLabel sampleArgs)
        (renderIdent "requests-2.0.0-py3-none-any.whl" ["security"]
          sampleArgs.pip_data_exclude sampleArgs.enable_implicit_namespace_pkgs
          sampleArgs.repo_prefix
          (dictGet (mainAnnotations sampleWorld sampleArgs)
            (wheelName "requests-2.0.0-py3-none-any.whl")))
      ∈ mainTargets sampleWorld sampleArgs
      ∧ (main sampleWorld sampleArgs).exit
        = Except.ok (mainTargets sampleWorld sampleArgs)
      ∧ ∀ whl', wheelName whl' ≠ wheelName "requests-2.0.0-py3-none-any.whl" →
          extract_wheel whl' (mainExtras sampleWorld sampleArgs)
              sampleArgs.pip_data_exclude
              sampleArgs.enable_implicit_namespace_pkgs sampleArgs.repo_prefix
              (dictGet (mainAnnotations sampleWorld sampleArgs)
                (wheelName whl'))
            = extract_wheel whl'
                (eraseExtras (mainExtras sampleWorld sampleArgs)
                  (wheelName "requests-2.0.0-py3-none-any.whl"))
                sampleArgs.pip_data_exclude
                sampleArgs.enable_implicit_namespace_pkgs
                sampleArgs.repo_prefix
                (dictGet (mainAnnotations sampleWorld sampleArgs)
                  (wheelName whl')) :=
  extras_applied_per_package sampleWorld sampleArgs
    "requests-2.0.0-py3-none-any.whl" ["security"]
    (by decide) (by decide) (by decide)

end ExtractWheels
